/-
Verification of the neoflix query layer (movie and people services).

The two Go source files (`services` package: movie service and people
service) are shallowly embedded below.  The Neo4j store is modelled as a
finite property graph (`Graph`): a list of nodes and a list of directed,
typed edges.  Each Cypher query issued by the services is translated into
an executable Lean function over `Graph` that mirrors the query's
match/filter/order/skip/limit semantics; the store's unspecified native
row order is modelled as the enumeration order of the node and edge
lists, and `ORDER BY` as a stable insertion sort over that order.
Sortable scalar properties are abstracted as integer-valued (`props`);
`imdbRating` keeps its own `Option ℚ` field because the similarity score
multiplies it.  Query-text construction (the `fmt.Sprintf` calls) is
embedded separately as string-building functions, with whitespace
normalised.

Two helpers of the repository are not part of the given sources and are
modelled from the spec; each carries a doc comment saying so.
-/
import Mathlib

namespace Neoflix

/-- Node labels occurring in the graph data model. -/
inductive Label where
  | Movie
  | Person
  | Genre
  | User
deriving DecidableEq, Repr

/-- Relationship types occurring in the graph data model. -/
inductive RelType where
  | IN_GENRE
  | ACTED_IN
  | DIRECTED
  | HAS_FAVORITE
  | RATED
deriving DecidableEq, Repr

/-- A graph node.  `id` is the key property (`tmdbId` for movies and
people, `userId` for users, `name` for genres).  Sortable scalar
properties are abstracted as an integer-valued association list `props`;
`imdbRating` is kept separately as an optional rational because the
movie-similarity score multiplies it. -/
structure Node where
  id : String
  label : Label
  name : String := ""
  title : String := ""
  props : List (String × Int) := []
  imdbRating : Option Rat := none
deriving DecidableEq, Repr

/-- A directed, typed relationship between two nodes (referenced by id).
`role` models the `role` property of `ACTED_IN` relationships. -/
structure Edge where
  src : String
  rel : RelType
  dst : String
  role : Option String := none
deriving DecidableEq, Repr

/-- The store: a finite property graph.  The order of the two lists
models the store's native (unspecified) enumeration order; distinct list
entries model distinct node/relationship instances. -/
structure Graph where
  nodes : List Node
  edges : List Edge
deriving DecidableEq, Repr

/-- Property lookup `n.prop` on a node; `none` models a Cypher `NULL`. -/
def Node.getProp (n : Node) (key : String) : Option Int :=
  (n.props.find? (fun kv => kv.1 == key)).map (fun kv => kv.2)

/-- ASCII lowercase of a character (models Cypher `toLower` on the
alphabet the data uses). -/
def lowerChar (c : Char) : Char :=
  if 65 ≤ c.toNat ∧ c.toNat ≤ 90 then Char.ofNat (c.toNat + 32) else c

/-- Lowercased character sequence of a string. -/
def lowerStr (s : String) : List Char :=
  s.data.map lowerChar

/-- Does the character list `hay` start with `nd`? -/
def leadsWith : List Char → List Char → Bool
  | _, [] => true
  | [], _ :: _ => false
  | a :: hs, b :: ns => a == b && leadsWith hs ns

/-- Does the character list `hay` contain `nd` as a contiguous
subsequence?  Models Cypher `CONTAINS`. -/
def containsCh : List Char → List Char → Bool
  | [], nd => nd.isEmpty
  | a :: hs, nd => leadsWith (a :: hs) nd || containsCh hs nd

/-- Case-insensitive substring containment: models
`toLower(p.name) CONTAINS toLower($q)`. -/
def containsCI (name q : String) : Bool :=
  containsCh (lowerStr name) (lowerStr q)

/-- Sort direction of a list query. -/
inductive SortOrder where
  | asc
  | desc
deriving DecidableEq, Repr

/-- The text interpolated for the direction (`%s` in the Go format
strings). -/
def SortOrder.cypher : SortOrder → String
  | .asc => "ASC"
  | .desc => "DESC"

/-- Modelled from the spec: the `paging` package (not among the given
sources).  A validated `PagingSpec`: `sort`/`order`/`skip`/`limit`
/`query`, read through the getters `Sort()`, `Order()`, `Skip()`,
`Limit()`, `Query()`.  Validation (spec 4.1) guarantees `skip ≥ 0` and
`limit ≥ 1`, hence the `Nat` fields. -/
structure Paging where
  sort : String
  order : SortOrder
  skip : Nat
  limit : Nat
  query : Option String := none
deriving DecidableEq, Repr

/-- Modelled from the spec: validation outcome of spec 4.1 for a paging
spec against an allow-list of sortable properties: the sort key must
come from the allow-list and the limit must be positive. -/
def ValidPaging (allow : List String) (p : Paging) : Prop :=
  p.sort ∈ allow ∧ 1 ≤ p.limit

/-- Modelled from the spec: `fixtures.Slice` (the `fixtures` package is
not among the given sources) — the client-side skip/limit slice the
movie list operations re-apply over the rows already windowed by the
store. -/
def Slice {α : Type} (xs : List α) (skip limit : Nat) : List α :=
  (xs.drop skip).take limit

/-- Null-last ascending comparison on an optional property value
(Cypher sorts `NULL` after every value in ascending order). -/
def nullLastLe (a b : Option Int) : Bool :=
  match a, b with
  | _, none => true
  | none, some _ => false
  | some x, some y => x ≤ y

/-- The row order produced by `ORDER BY n.sort dir`: ascending uses the
null-last comparison, descending its flip. -/
def sortRel (sort : String) (ord : SortOrder) (a b : Node) : Prop :=
  match ord with
  | .asc => nullLastLe (a.getProp sort) (b.getProp sort) = true
  | .desc => nullLastLe (b.getProp sort) (a.getProp sort) = true

instance (sort : String) (ord : SortOrder) : DecidableRel (sortRel sort ord) := fun a b => by
  cases ord <;> simp only [sortRel] <;> infer_instance

/-! ## Favorites resolution (`getUserFavorites`) -/

/-- `getUserFavorites`: with an empty `userId` it returns immediately
(`nil, nil` in Go); otherwise it runs the favorites query
`MATCH (u:User {userId: $userId})-[:HAS_FAVORITE]->(m) RETURN m.tmdbId`
and collects one id per matching relationship.  The second component
records whether `tx.Run` was called, so that "no store query occurs"
is expressible. -/
def getUserFavorites (g : Graph) (userId : String) : List String × Bool :=
  if userId = "" then ([], false)
  else
    ((g.edges.filter fun e =>
        e.rel == RelType.HAS_FAVORITE && e.src == userId &&
          g.nodes.any fun u => u.label == Label.User && u.id == userId).map
      (fun e => e.dst),
     true)

/-! ## Movie list operations -/

/-- The row shape `m { .*, favorite: m.tmdbId IN $favorites }` returned
by the four movie list queries. -/
structure MovieEntity where
  tmdbId : String
  title : String
  props : List (String × Int)
  imdbRating : Option Rat
  favorite : Bool
deriving DecidableEq, Repr

/-- Projection of a matched movie node to the returned row. -/
def toMovieEntity (favorites : List String) (n : Node) : MovieEntity :=
  { tmdbId := n.id, title := n.title, props := n.props,
    imdbRating := n.imdbRating, favorite := favorites.contains n.id }

/-- Which movie nodes a movie list query matches: `FindAll` matches
every movie, the three category variants add a one-hop relationship
pattern.  Matching a pattern is modelled as existence of a witnessing
relationship. -/
inductive MovieFilter where
  | all
  | byGenre (name : String)
  | byActorId (id : String)
  | byDirectorId (id : String)
deriving DecidableEq, Repr

/-- `MATCH` clause of the four movie list queries, including the
`WHERE m.sort IS NOT NULL` filter they all share. -/
def movieMatches (g : Graph) (f : MovieFilter) (sort : String) : List Node :=
  g.nodes.filter fun m =>
    m.label == Label.Movie && (m.getProp sort).isSome &&
      (match f with
       | .all => true
       | .byGenre name =>
           g.edges.any fun e =>
             e.rel == RelType.IN_GENRE && e.src == m.id &&
               g.nodes.any fun x => x.label == Label.Genre && x.id == name && e.dst == x.id
       | .byActorId id =>
           g.edges.any fun e =>
             e.rel == RelType.ACTED_IN && e.dst == m.id &&
               g.nodes.any fun x => x.label == Label.Person && x.id == id && e.src == x.id
       | .byDirectorId id =>
           g.edges.any fun e =>
             e.rel == RelType.DIRECTED && e.dst == m.id &&
               g.nodes.any fun x => x.label == Label.Person && x.id == id && e.src == x.id)

/-- Rows produced by the store for a movie list query: match, order by
the sort property in the requested direction (stable over the store's
native order), `SKIP $skip`, `LIMIT $limit`, then project each row. -/
def movieStoreRows (g : Graph) (f : MovieFilter) (favorites : List String) (p : Paging) :
    List MovieEntity :=
  ((((movieMatches g f p.sort).insertionSort (sortRel p.sort p.order)).drop p.skip).take
    p.limit).map (toMovieEntity favorites)

/-- The common body of the four movie list operations: resolve
favorites, run the store query, then re-apply the client-side
skip/limit slice to the collected rows (the `fixtures.Slice` call on
the Go side). -/
def movieListOp (g : Graph) (f : MovieFilter) (userId : String) (p : Paging) :
    List MovieEntity :=
  Slice (movieStoreRows g f (getUserFavorites g userId).1 p) p.skip p.limit

/-- `neo4jMovieService.FindAll`. -/
def movieFindAll (g : Graph) (userId : String) (p : Paging) : List MovieEntity :=
  movieListOp g .all userId p

/-- `neo4jMovieService.FindAllByGenre`. -/
def movieFindAllByGenre (g : Graph) (genre userId : String) (p : Paging) : List MovieEntity :=
  movieListOp g (.byGenre genre) userId p

/-- `neo4jMovieService.FindAllByActorId`. -/
def movieFindAllByActorId (g : Graph) (actorId userId : String) (p : Paging) : List MovieEntity :=
  movieListOp g (.byActorId actorId) userId p

/-- `neo4jMovieService.FindAllByDirectorId`. -/
def movieFindAllByDirectorId (g : Graph) (directorId userId : String) (p : Paging) :
    List MovieEntity :=
  movieListOp g (.byDirectorId directorId) userId p

/-! ## Movie similarity (`FindAllBySimilarity`) -/

/-- Is the relationship type one of `IN_GENRE|ACTED_IN|DIRECTED`? -/
def simRelType (t : RelType) : Bool :=
  t == RelType.IN_GENRE || t == RelType.ACTED_IN || t == RelType.DIRECTED

/-- Match rows of the pattern
`(:Movie {tmdbId: $id})-[:IN_GENRE|ACTED_IN|DIRECTED]->()<-[:IN_GENRE|ACTED_IN|DIRECTED]-(m)`
for a fixed candidate `m`: ordered pairs of *distinct* relationships
(Cypher relationship uniqueness; distinctness is by position in the
edge list) leaving the source and leaving the candidate towards a
common existing intermediate node. -/
def simPaths (g : Graph) (srcId mId : String) : List (Nat × Nat) :=
  (g.edges.enum.flatMap fun ie =>
    g.edges.enum.filterMap fun je =>
      if ie.1 != je.1 && ie.2.src == srcId && simRelType ie.2.rel &&
          je.2.src == mId && simRelType je.2.rel && ie.2.dst == je.2.dst &&
          g.nodes.any (fun x => x.id == ie.2.dst)
      then some (ie.1, je.1) else none)

/-- `count(*)` grouped by `m`: the number of distinct shared-connection
paths between the source movie and the candidate. -/
def inCommonCount (g : Graph) (srcId mId : String) : Nat :=
  (simPaths g srcId mId).length

/-- Candidates of the movie similarity query: nodes with at least one
matching path and a non-null `imdbRating` (grouping keys of the
`WITH m, count(*)` stage), provided the source movie exists.  Paired
with `score = m.imdbRating * inCommon`. -/
def movieSimScored (g : Graph) (srcId : String) : List (Node × Rat) :=
  if g.nodes.any fun n => n.label == Label.Movie && n.id == srcId then
    (g.nodes.filter fun m => m.imdbRating.isSome && inCommonCount g srcId m.id != 0).map
      fun m => (m, m.imdbRating.getD 0 * (inCommonCount g srcId m.id : Rat))
  else []

/-- `ORDER BY score DESC` on the scored candidates. -/
def scoreRel (a b : Node × Rat) : Prop := b.2 ≤ a.2

instance : DecidableRel scoreRel := fun a b => by
  simp only [scoreRel]; infer_instance

instance : IsTotal (Node × Rat) scoreRel := ⟨fun a b => le_total b.2 a.2⟩

instance : IsTrans (Node × Rat) scoreRel := ⟨fun _ _ _ h1 h2 => le_trans h2 h1⟩

/-- The row shape `m { .*, score: score, favorite: ... }` of the
movie similarity query. -/
structure SimMovieEntity where
  tmdbId : String
  title : String
  imdbRating : Option Rat
  score : Rat
  favorite : Bool
deriving DecidableEq, Repr

/-- `neo4jMovieService.FindAllBySimilarity`: resolve favorites, score
the candidates, order by score descending, `SKIP`/`LIMIT`, project.
The collected rows are returned to the caller directly (no client-side
re-slice). -/
def movieFindAllBySimilarity (g : Graph) (id userId : String) (p : Paging) :
    List SimMovieEntity :=
  ((((movieSimScored g id).insertionSort scoreRel).drop p.skip).take p.limit).map
    fun ms =>
      { tmdbId := ms.1.id, title := ms.1.title, imdbRating := ms.1.imdbRating,
        score := ms.2, favorite := (getUserFavorites g userId).1.contains ms.1.id }

/-! ## Movie detail (`FindOneById`) -/

/-- Failure cases surfaced by `result.Single()`: no record, or more
than one record; the spec names the zero-row case `NotFound`. -/
inductive DbError where
  | notFound
  | tooMany
deriving DecidableEq, Repr

/-- `result.Single()`: exactly one collected record, otherwise an
error. -/
def singleRec {α : Type} : List α → Except DbError α
  | [] => .error .notFound
  | [x] => .ok x
  | _ :: _ :: _ => .error .tooMany

/-- Row shape of the movie detail query, with the nested projections
(`actors` with roles, `directors`, `genres`) and `ratingCount`. -/
structure MovieDetail where
  tmdbId : String
  title : String
  actors : List (String × Option String)
  directors : List String
  genres : List String
  ratingCount : Nat
  favorite : Bool
deriving DecidableEq, Repr

/-- Projection of the movie detail query for a matched node. -/
def toMovieDetail (g : Graph) (favorites : List String) (m : Node) : MovieDetail :=
  { tmdbId := m.id, title := m.title,
    actors := (g.edges.filter fun e => e.rel == RelType.ACTED_IN && e.dst == m.id).map
      fun e => (e.src, e.role),
    directors := (g.edges.filter fun e => e.rel == RelType.DIRECTED && e.dst == m.id).map
      fun e => e.src,
    genres := (g.edges.filter fun e => e.rel == RelType.IN_GENRE && e.src == m.id).map
      fun e => e.dst,
    ratingCount := (g.edges.filter fun e => e.rel == RelType.RATED && e.dst == m.id).length,
    favorite := favorites.contains m.id }

/-- `neo4jMovieService.FindOneById`: resolve favorites, run
`MATCH (m:Movie {tmdbId: $id}) RETURN ... LIMIT 1`, then
`result.Single()`. -/
def movieFindOneById (g : Graph) (id userId : String) : Except DbError MovieDetail :=
  singleRec
    (((g.nodes.filter fun n => n.label == Label.Movie && n.id == id).take 1).map
      (toMovieDetail g (getUserFavorites g userId).1))

/-! ## People service -/

/-- Row shape `p { .* }` of the people list query. -/
structure PersonEntity where
  tmdbId : String
  name : String
  props : List (String × Int)
deriving DecidableEq, Repr

/-- Projection of a matched person node to the returned row. -/
def toPersonEntity (n : Node) : PersonEntity :=
  { tmdbId := n.id, name := n.name, props := n.props }

/-- `WHERE $q IS NULL OR toLower(p.name) CONTAINS toLower($q)` applied
to a person node. -/
def personPred (q : Option String) (n : Node) : Bool :=
  n.label == Label.Person &&
    (match q with
     | none => true
     | some qs => containsCI n.name qs)

/-- `neo4jPeopleService.FindAll`: match people through the optional
name filter, order by the sort property, `SKIP`/`LIMIT`, project.  The
collected rows are returned directly (no client-side re-slice). -/
def peopleFindAll (g : Graph) (p : Paging) : List PersonEntity :=
  ((((g.nodes.filter (personPred p.query)).insertionSort (sortRel p.sort p.order)).drop
    p.skip).take p.limit).map toPersonEntity

/-- `size((p)-[:ACTED_IN]->())`. -/
def actedCount (g : Graph) (pId : String) : Nat :=
  (g.edges.filter fun e => e.rel == RelType.ACTED_IN && e.src == pId).length

/-- `size((p)-[:DIRECTED]->())`. -/
def directedCount (g : Graph) (pId : String) : Nat :=
  (g.edges.filter fun e => e.rel == RelType.DIRECTED && e.src == pId).length

/-- Row shape of the people detail query. -/
structure PersonDetail where
  tmdbId : String
  name : String
  actedCount : Nat
  directedCount : Nat
deriving DecidableEq, Repr

/-- `neo4jPeopleService.FindOneById`: `MATCH (p:Person {tmdbId: $id})`
(no `LIMIT`), project, then `result.Single()`. -/
def peopleFindOneById (g : Graph) (id : String) : Except DbError PersonDetail :=
  singleRec
    ((g.nodes.filter fun n => n.label == Label.Person && n.id == id).map fun p =>
      ({ tmdbId := p.id, name := p.name, actedCount := actedCount g p.id,
         directedCount := directedCount g p.id } : PersonDetail))

/-! ## People similarity (`FindAllBySimilarity`) -/

/-- Is the relationship type one of `ACTED_IN|DIRECTED`? -/
def creditRelType (t : RelType) : Bool :=
  t == RelType.ACTED_IN || t == RelType.DIRECTED

/-- One element of the collected `inCommon` list:
`m { .tmdbId, .title, type: type(r) }` where `r` is the relationship
connecting the similar person to the shared title. -/
structure SharedTitle where
  tmdbId : String
  title : String
  relType : RelType
deriving DecidableEq, Repr

/-- `collect(m {.tmdbId, .title, type: type(r)})` grouped by `p`: one
element per match row of
`(:Person {tmdbId: $id})-[:ACTED_IN|DIRECTED]->(m)<-[r:ACTED_IN|DIRECTED]-(p)`
with `p` fixed — ordered pairs of distinct relationships (by position)
from the source and from `p` into a common existing title node. -/
def sharedCredits (g : Graph) (srcId pId : String) : List SharedTitle :=
  g.edges.enum.flatMap fun ie =>
    g.edges.enum.filterMap fun je =>
      if ie.1 != je.1 && ie.2.src == srcId && creditRelType ie.2.rel &&
          je.2.src == pId && creditRelType je.2.rel && ie.2.dst == je.2.dst then
        match g.nodes.find? fun x => x.id == ie.2.dst with
        | some m => some { tmdbId := m.id, title := m.title, relType := je.2.rel }
        | none => none
      else none

/-- Row shape of the people similarity query: the person's properties,
the two counts, and the collected `inCommon` list. -/
structure SimPersonEntity where
  tmdbId : String
  name : String
  actedCount : Nat
  directedCount : Nat
  inCommon : List SharedTitle
deriving DecidableEq, Repr

/-- Projection of a candidate person of the similarity query. -/
def toSimPerson (g : Graph) (srcId : String) (p : Node) : SimPersonEntity :=
  { tmdbId := p.id, name := p.name, actedCount := actedCount g p.id,
    directedCount := directedCount g p.id, inCommon := sharedCredits g srcId p.id }

/-- Candidates of the people similarity query: nodes with at least one
match row (grouping keys of the `collect` aggregation), provided the
source person exists. -/
def peopleSimCandidates (g : Graph) (srcId : String) : List Node :=
  if g.nodes.any fun n => n.label == Label.Person && n.id == srcId then
    g.nodes.filter fun p => (sharedCredits g srcId p.id).length != 0
  else []

/-- `ORDER BY size(person.inCommon) DESC` on the projected rows. -/
def simSizeRel (a b : SimPersonEntity) : Prop :=
  b.inCommon.length ≤ a.inCommon.length

instance : DecidableRel simSizeRel := fun a b => by
  simp only [simSizeRel]; infer_instance

instance : IsTotal SimPersonEntity simSizeRel := ⟨fun a b => le_total b.inCommon.length a.inCommon.length⟩

instance : IsTrans SimPersonEntity simSizeRel := ⟨fun _ _ _ h1 h2 => le_trans h2 h1⟩

/-- `neo4jPeopleService.FindAllBySimilarity`: project the candidates,
order by the size of the collected list descending, `SKIP`/`LIMIT`.
The collected rows are returned directly (no client-side re-slice). -/
def peopleFindAllBySimilarity (g : Graph) (id : String) (p : Paging) :
    List SimPersonEntity :=
  ((((peopleSimCandidates g id).map (toSimPerson g id)).insertionSort simSizeRel).drop
    p.skip).take p.limit

/-! ## Query-text construction

The services build each query string with `fmt.Sprintf`, interpolating
only the sort property name and the order direction; every user value
travels in the parameter map passed to `tx.Run`.  The string-building
side is embedded here (whitespace normalised to single spaces); a
parameter value is a string, an integer, an optional string, or a list
of strings. -/

/-- A value bound into the parameter map of `tx.Run`. -/
inductive ParamVal where
  | str (s : String)
  | int (n : Nat)
  | strList (l : List String)
  | optStr (o : Option String)
deriving DecidableEq, Repr

/-- The `RETURN ... ORDER BY ... SKIP ... LIMIT` tail shared by the four
movie list queries, with the sort key and direction interpolated. -/
def movieListTail (sort dir : String) : String :=
  " WHERE m.`" ++ sort ++ "` IS NOT NULL" ++
  " RETURN m \x7b .* , favorite: m.tmdbId IN $favorites \x7d AS movie" ++
  " ORDER BY m.`" ++ sort ++ "` " ++ dir ++
  " SKIP $skip LIMIT $limit"

/-- Query text of movie `FindAll`. -/
def movieFindAllText (p : Paging) : String :=
  "MATCH (m:Movie)" ++ movieListTail p.sort p.order.cypher

/-- Parameter map of movie `FindAll`. -/
def movieFindAllParams (p : Paging) (favorites : List String) : List (String × ParamVal) :=
  [("skip", .int p.skip), ("limit", .int p.limit), ("favorites", .strList favorites)]

/-- Query text of movie `FindAllByGenre`. -/
def movieByGenreText (p : Paging) : String :=
  "MATCH (m:Movie)-[:IN_GENRE]->(:Genre \x7bname: $name\x7d)" ++ movieListTail p.sort p.order.cypher

/-- Parameter map of movie `FindAllByGenre`. -/
def movieByGenreParams (p : Paging) (favorites : List String) (genre : String) :
    List (String × ParamVal) :=
  [("skip", .int p.skip), ("limit", .int p.limit), ("favorites", .strList favorites),
   ("name", .str genre)]

/-- Query text of movie `FindAllByActorId`. -/
def movieByActorText (p : Paging) : String :=
  "MATCH (:Person \x7btmdbId: $id\x7d)-[:ACTED_IN]->(m:Movie)" ++ movieListTail p.sort p.order.cypher

/-- Query text of movie `FindAllByDirectorId`. -/
def movieByDirectorText (p : Paging) : String :=
  "MATCH (:Person \x7btmdbId: $id\x7d)-[:DIRECTED]->(m:Movie)" ++ movieListTail p.sort p.order.cypher

/-- Parameter map shared by `FindAllByActorId` and `FindAllByDirectorId`. -/
def movieByPersonParams (p : Paging) (favorites : List String) (id : String) :
    List (String × ParamVal) :=
  [("skip", .int p.skip), ("limit", .int p.limit), ("favorites", .strList favorites),
   ("id", .str id)]

/-- Query text of people `FindAll`. -/
def peopleFindAllText (p : Paging) : String :=
  "MATCH (p:Person)" ++
  " WHERE $q IS NULL OR toLower(p.name) CONTAINS toLower($q)" ++
  " RETURN p \x7b .* \x7d AS person" ++
  " ORDER BY p.`" ++ p.sort ++ "` " ++ p.order.cypher ++
  " SKIP $skip LIMIT $limit"

/-- Parameter map of people `FindAll`: the free-text query travels as
the bound parameter `$q`. -/
def peopleFindAllParams (p : Paging) : List (String × ParamVal) :=
  [("q", .optStr p.query), ("skip", .int p.skip), ("limit", .int p.limit)]

/-- Query text of the favorites lookup — a constant, the user id is the
bound parameter `$userId`. -/
def favoritesText : String :=
  "MATCH (u:User \x7buserId: $userId\x7d)-[:HAS_FAVORITE]->(m) RETURN m.tmdbId AS id"

/-- Parameter map of the favorites lookup. -/
def favoritesParams (userId : String) : List (String × ParamVal) :=
  [("userId", .str userId)]

/-- Query text of movie `FindAllBySimilarity` — a constant: this query
interpolates nothing, not even sort/order. -/
def movieSimilarityText : String :=
  "MATCH (:Movie \x7btmdbId: $id\x7d)-[:IN_GENRE|ACTED_IN|DIRECTED]->()<-[:IN_GENRE|ACTED_IN|DIRECTED]-(m)" ++
  " WHERE m.imdbRating IS NOT NULL" ++
  " WITH m, count(*) AS inCommon" ++
  " WITH m, inCommon, m.imdbRating * inCommon AS score" ++
  " ORDER BY score DESC" ++
  " SKIP $skip LIMIT $limit" ++
  " RETURN m \x7b .*, score: score, favorite: m.tmdbId IN $favorites \x7d AS movie"

/-- Parameter map of movie `FindAllBySimilarity`. -/
def movieSimilarityParams (p : Paging) (favorites : List String) (id : String) :
    List (String × ParamVal) :=
  [("id", .str id), ("favorites", .strList favorites),
   ("skip", .int p.skip), ("limit", .int p.limit)]

/-- Query text of people `FindAllBySimilarity` — a constant. -/
def peopleSimilarityText : String :=
  "MATCH (:Person \x7btmdbId: $id\x7d)-[:ACTED_IN|DIRECTED]->(m)<-[r:ACTED_IN|DIRECTED]-(p)" ++
  " RETURN p \x7b .*, actedCount: size((p)-[:ACTED_IN]->()), directedCount: size((p)-[:DIRECTED]->()), inCommon: collect(m \x7b.tmdbId, .title, type: type(r)\x7d) \x7d AS person" ++
  " ORDER BY size(person.inCommon) DESC" ++
  " SKIP $skip LIMIT $limit"

/-- Parameter map of people `FindAllBySimilarity`. -/
def peopleSimilarityParams (p : Paging) (id : String) : List (String × ParamVal) :=
  [("id", .str id), ("skip", .int p.skip), ("limit", .int p.limit)]

/-! ## Concrete stores used to evaluate the operations -/

/-- A movie node with a `released` sort property and no rating. -/
def mkMovie (id : String) (released : Int) : Node :=
  { id := id, label := Label.Movie, title := "t" ++ id, props := [("released", released)] }

/-- A paging spec sorting ascending by `released`. -/
def pgR (skip limit : Nat) : Paging :=
  { sort := "released", order := SortOrder.asc, skip := skip, limit := limit }

/-- A paging spec sorting ascending by `name`, with an optional
free-text query. -/
def pgN (skip limit : Nat) (q : Option String := none) : Paging :=
  { sort := "name", order := SortOrder.asc, skip := skip, limit := limit, query := q }

/-- Four movies released 1..4, one user with one favorite. -/
def gFour : Graph :=
  { nodes := [mkMovie "m1" 1, mkMovie "m2" 2, mkMovie "m3" 3, mkMovie "m4" 4,
              { id := "u1", label := Label.User }],
    edges := [{ src := "u1", rel := RelType.HAS_FAVORITE, dst := "m2" }] }

/-- The empty store. -/
def gEmpty : Graph := { nodes := [], edges := [] }

/-- Two named people. -/
def gPeople : Graph :=
  { nodes := [{ id := "p1", label := Label.Person, name := "Tom Hanks", props := [("name", 1)] },
              { id := "p2", label := Label.Person, name := "Brad Pitt", props := [("name", 2)] }],
    edges := [] }

/-- Movie-similarity store: source movie `s` and movie `m1` share genre
`g1`; `m2` shares it too but has no rating and must be excluded. -/
def gSim : Graph :=
  { nodes := [{ id := "s", label := Label.Movie, title := "ts", imdbRating := some 5 },
              { id := "g1", label := Label.Genre },
              { id := "m1", label := Label.Movie, title := "tm1", imdbRating := some 8 },
              { id := "m2", label := Label.Movie, title := "tm2" }],
    edges := [{ src := "s", rel := RelType.IN_GENRE, dst := "g1" },
              { src := "m1", rel := RelType.IN_GENRE, dst := "g1" },
              { src := "m2", rel := RelType.IN_GENRE, dst := "g1" }] }

/-- People-similarity store: people `a` and `b` each share exactly one
credit (movie `m`) with source person `s` — an exact tie. -/
def gTieA : Graph :=
  { nodes := [{ id := "s", label := Label.Person, name := "S" },
              { id := "m", label := Label.Movie, title := "T" },
              { id := "a", label := Label.Person, name := "A" },
              { id := "b", label := Label.Person, name := "B" }],
    edges := [{ src := "s", rel := RelType.ACTED_IN, dst := "m" },
              { src := "a", rel := RelType.ACTED_IN, dst := "m" },
              { src := "b", rel := RelType.ACTED_IN, dst := "m" }] }

/-- The same store as `gTieA` up to the order in which the store
enumerates its nodes: `a` and `b` swapped. -/
def gTieB : Graph :=
  { nodes := [{ id := "s", label := Label.Person, name := "S" },
              { id := "m", label := Label.Movie, title := "T" },
              { id := "b", label := Label.Person, name := "B" },
              { id := "a", label := Label.Person, name := "A" }],
    edges := [{ src := "s", rel := RelType.ACTED_IN, dst := "m" },
              { src := "a", rel := RelType.ACTED_IN, dst := "m" },
              { src := "b", rel := RelType.ACTED_IN, dst := "m" }] }

/-! ## Helper lemmas -/

/-- A skip/limit window of a list is a sublist of it. -/
theorem window_sublist {α : Type} (xs : List α) (s l : Nat) :
    List.Sublist ((xs.drop s).take l) xs :=
  (List.take_sublist _ _).trans (List.drop_sublist _ _)

/-- Membership in a skip/limit window implies membership in the list. -/
theorem mem_of_mem_window {α : Type} {xs : List α} {s l : Nat} {e : α}
    (he : e ∈ (xs.drop s).take l) : e ∈ xs :=
  (window_sublist xs s l).subset he

/-- `List.contains` on strings decides membership. -/
theorem contains_iff_mem_str (l : List String) (a : String) : l.contains a = true ↔ a ∈ l :=
  List.elem_iff

/-- Every row of a movie list operation is the projection of some node
under the favorites set resolved for the call. -/
theorem mem_movieListOp {g : Graph} {f : MovieFilter} {u : String} {p : Paging}
    {e : MovieEntity} (he : e ∈ movieListOp g f u p) :
    ∃ n, e = toMovieEntity (getUserFavorites g u).1 n := by
  have h1 : e ∈ movieStoreRows g f (getUserFavorites g u).1 p := mem_of_mem_window he
  simp only [movieStoreRows, List.mem_map] at h1
  obtain ⟨n, -, hn⟩ := h1
  exact ⟨n, hn.symm⟩

/-! ## Claims -/

/-- C1: each movie list operation (`FindAll`, `FindAllByGenre`,
`FindAllByActorId`, `FindAllByDirectorId`) returns exactly the
client-side skip/limit slice (`fixtures.Slice`) re-applied over the
rows the store already restricted to at most `limit` rows starting at
offset `skip`; and with `skip > 0` the operation can return fewer rows
than the store matched within the requested window — at the four-movie
store with skip 1 and limit 2, the store window has two rows but the
operation returns one. -/
theorem claim_C1_double_windowing :
    (∀ (g : Graph) (u : String) (p : Paging),
        movieFindAll g u p =
          Slice (movieStoreRows g .all (getUserFavorites g u).1 p) p.skip p.limit) ∧
    (∀ (g : Graph) (genre u : String) (p : Paging),
        movieFindAllByGenre g genre u p =
          Slice (movieStoreRows g (.byGenre genre) (getUserFavorites g u).1 p) p.skip p.limit) ∧
    (∀ (g : Graph) (actorId u : String) (p : Paging),
        movieFindAllByActorId g actorId u p =
          Slice (movieStoreRows g (.byActorId actorId) (getUserFavorites g u).1 p)
            p.skip p.limit) ∧
    (∀ (g : Graph) (directorId u : String) (p : Paging),
        movieFindAllByDirectorId g directorId u p =
          Slice (movieStoreRows g (.byDirectorId directorId) (getUserFavorites g u).1 p)
            p.skip p.limit) ∧
    (0 < (pgR 1 2).skip ∧
      (movieFindAll gFour "" (pgR 1 2)).length <
        (movieStoreRows gFour .all (getUserFavorites gFour "").1 (pgR 1 2)).length) :=
  ⟨fun _ _ _ => rfl, fun _ _ _ _ => rfl, fun _ _ _ _ => rfl, fun _ _ _ _ => rfl,
   by decide, by decide⟩

/-- C2: in every movie list operation a returned entity is flagged
`favorite` exactly when its `tmdbId` is in the favorites set resolved
for the call; with an empty user id the favorites resolution returns
the empty set without running a store query (second component `false`)
and every returned entity has `favorite = false`. -/
theorem claim_C2_favorite_annotation (g : Graph)
    (userId genre actorId directorId simId : String) (p : Paging) :
    (∀ e ∈ movieFindAll g userId p,
        (e.favorite = true ↔ e.tmdbId ∈ (getUserFavorites g userId).1)) ∧
    (∀ e ∈ movieFindAllByGenre g genre userId p,
        (e.favorite = true ↔ e.tmdbId ∈ (getUserFavorites g userId).1)) ∧
    (∀ e ∈ movieFindAllByActorId g actorId userId p,
        (e.favorite = true ↔ e.tmdbId ∈ (getUserFavorites g userId).1)) ∧
    (∀ e ∈ movieFindAllByDirectorId g directorId userId p,
        (e.favorite = true ↔ e.tmdbId ∈ (getUserFavorites g userId).1)) ∧
    (∀ e ∈ movieFindAllBySimilarity g simId userId p,
        (e.favorite = true ↔ e.tmdbId ∈ (getUserFavorites g userId).1)) ∧
    getUserFavorites g "" = ([], false) ∧
    (userId = "" →
      (∀ e ∈ movieFindAll g userId p, e.favorite = false) ∧
      (∀ e ∈ movieFindAllByGenre g genre userId p, e.favorite = false) ∧
      (∀ e ∈ movieFindAllByActorId g actorId userId p, e.favorite = false) ∧
      (∀ e ∈ movieFindAllByDirectorId g directorId userId p, e.favorite = false) ∧
      (∀ e ∈ movieFindAllBySimilarity g simId userId p, e.favorite = false)) := by
  have hfav : ∀ {f : MovieFilter} {e : MovieEntity}, e ∈ movieListOp g f userId p →
      (e.favorite = true ↔ e.tmdbId ∈ (getUserFavorites g userId).1) := by
    intro f e he
    obtain ⟨n, rfl⟩ := mem_movieListOp he
    exact contains_iff_mem_str (getUserFavorites g userId).1 n.id
  have hsim : ∀ {e : SimMovieEntity}, e ∈ movieFindAllBySimilarity g simId userId p →
      (e.favorite = true ↔ e.tmdbId ∈ (getUserFavorites g userId).1) := by
    intro e he
    simp only [movieFindAllBySimilarity, List.mem_map] at he
    obtain ⟨ms, -, rfl⟩ := he
    exact contains_iff_mem_str (getUserFavorites g userId).1 ms.1.id
  have hempty : getUserFavorites g "" = ([], false) := rfl
  refine ⟨fun e he => hfav he, fun e he => hfav he, fun e he => hfav he, fun e he => hfav he,
    fun e he => hsim he, hempty, ?_⟩
  rintro rfl
  have hnil : (getUserFavorites g "").1 = [] := by rw [hempty]
  have hfalse : ∀ {b : Bool} {s : String},
      (b = true ↔ s ∈ (getUserFavorites g "").1) → b = false := by
    intro b s h
    cases hb : b with
    | false => rfl
    | true => exact absurd (h.mp hb) (by simp [hnil])
  exact ⟨fun e he => hfalse (hfav he), fun e he => hfalse (hfav he),
    fun e he => hfalse (hfav he), fun e he => hfalse (hfav he),
    fun e he => hfalse (hsim he)⟩

/-- C2 witness: at the four-movie store with an anonymous caller, the
favorites resolution returns the empty set without a store query and
every row of `FindAll` has `favorite = false`. -/
theorem claim_C2_witness :
    getUserFavorites gFour "" = ([], false) ∧
    ∀ e ∈ movieFindAll gFour "" (pgR 0 4), e.favorite = false := by
  have h := claim_C2_favorite_annotation gFour "" "Comedy" "a1" "d1" "s1" (pgR 0 4)
  exact ⟨h.2.2.2.2.2.1, (h.2.2.2.2.2.2 rfl).1⟩

/-- C3: in movie `FindAllBySimilarity` the scored candidates are
exactly the movies sharing at least one first-degree connection path
with the source movie and having a non-null rating (assuming, as in
the intended data model, that only movies carry a rating); each
returned row's score is its rating times its count of distinct
shared-connection paths; skip and limit are applied after ordering by
score descending, so scores are non-increasing across the result and
every returned movie has a non-null rating. -/
theorem claim_C3_movie_similarity (g : Graph) (src userId : String) (p : Paging)
    (hmv : ∀ n ∈ g.nodes, n.imdbRating.isSome = true → n.label = Label.Movie)
    (hsrc : (g.nodes.any fun n => n.label == Label.Movie && n.id == src) = true) :
    (∀ m : Node, (∃ sc, (m, sc) ∈ movieSimScored g src) ↔
        (m ∈ g.nodes ∧ m.label = Label.Movie ∧ m.imdbRating.isSome = true ∧
          0 < inCommonCount g src m.id)) ∧
    (∀ e ∈ movieFindAllBySimilarity g src userId p,
        ∃ m ∈ g.nodes, e.tmdbId = m.id ∧ m.imdbRating.isSome = true ∧
          e.imdbRating = m.imdbRating ∧
          e.score = m.imdbRating.getD 0 * (inCommonCount g src m.id : Rat)) ∧
    movieFindAllBySimilarity g src userId p =
      ((((movieSimScored g src).insertionSort scoreRel).drop p.skip).take p.limit).map
        (fun ms =>
          { tmdbId := ms.1.id, title := ms.1.title, imdbRating := ms.1.imdbRating,
            score := ms.2, favorite := (getUserFavorites g userId).1.contains ms.1.id }) ∧
    ((movieFindAllBySimilarity g src userId p).map (fun e => e.score)).Pairwise
      (fun a b => b ≤ a) ∧
    (∀ e ∈ movieFindAllBySimilarity g src userId p, e.imdbRating.isSome = true) := by
  have hscored : movieSimScored g src =
      (g.nodes.filter fun m => m.imdbRating.isSome && inCommonCount g src m.id != 0).map
        fun m => (m, m.imdbRating.getD 0 * (inCommonCount g src m.id : Rat)) := by
    simp only [movieSimScored, hsrc, if_true]
  have hchar : ∀ m : Node, (∃ sc, (m, sc) ∈ movieSimScored g src) ↔
      (m ∈ g.nodes ∧ m.label = Label.Movie ∧ m.imdbRating.isSome = true ∧
        0 < inCommonCount g src m.id) := by
    intro m
    rw [hscored]
    constructor
    · rintro ⟨sc, hmem⟩
      obtain ⟨m', hm', heq⟩ := List.mem_map.mp hmem
      have hm'm : m' = m := congrArg Prod.fst heq
      subst hm'm
      obtain ⟨hmem', hpred⟩ := List.mem_filter.mp hm'
      simp only [Bool.and_eq_true, bne_iff_ne, ne_eq] at hpred
      exact ⟨hmem', hmv m' hmem' hpred.1, hpred.1, Nat.pos_of_ne_zero hpred.2⟩
    · rintro ⟨hmem, -, hsome, hpos⟩
      refine ⟨m.imdbRating.getD 0 * (inCommonCount g src m.id : Rat), List.mem_map.mpr ⟨m, ?_, rfl⟩⟩
      exact List.mem_filter.mpr ⟨hmem, by
        simp only [Bool.and_eq_true, bne_iff_ne, ne_eq]
        exact ⟨hsome, Nat.pos_iff_ne_zero.mp hpos⟩⟩
  have hshape : ∀ e ∈ movieFindAllBySimilarity g src userId p,
      ∃ m ∈ g.nodes, e.tmdbId = m.id ∧ m.imdbRating.isSome = true ∧
        e.imdbRating = m.imdbRating ∧
        e.score = m.imdbRating.getD 0 * (inCommonCount g src m.id : Rat) := by
    intro e he
    simp only [movieFindAllBySimilarity, List.mem_map] at he
    obtain ⟨ms, hms, rfl⟩ := he
    have hms2 : ms ∈ movieSimScored g src :=
      (List.mem_insertionSort scoreRel).mp (mem_of_mem_window hms)
    rw [hscored] at hms2
    obtain ⟨m, hmf, heq⟩ := List.mem_map.mp hms2
    obtain ⟨hmem, hpred⟩ := List.mem_filter.mp hmf
    simp only [Bool.and_eq_true, bne_iff_ne, ne_eq] at hpred
    refine ⟨m, hmem, ?_, hpred.1, ?_, ?_⟩ <;> rw [← heq]
  refine ⟨hchar, hshape, rfl, ?_, fun e he => ?_⟩
  · have hsorted : ((movieSimScored g src).insertionSort scoreRel).Pairwise scoreRel :=
      List.sorted_insertionSort scoreRel (movieSimScored g src)
    have hwin : (((((movieSimScored g src).insertionSort scoreRel).drop p.skip).take
        p.limit)).Pairwise scoreRel :=
      hsorted.sublist (window_sublist _ p.skip p.limit)
    simp only [movieFindAllBySimilarity, List.map_map, List.pairwise_map]
    exact hwin
  · obtain ⟨m, -, -, hsome, hrat, -⟩ := hshape e he
    rw [hrat]; exact hsome

/-- C3 witness: the similarity store satisfies the data-model
hypothesis and the returned scores are non-increasing there. -/
theorem claim_C3_witness :
    (∀ n ∈ gSim.nodes, n.imdbRating.isSome = true → n.label = Label.Movie) ∧
    ((movieFindAllBySimilarity gSim "s" "" (pgR 0 2)).map (fun e => e.score)).Pairwise
      (fun a b => b ≤ a) :=
  ⟨by decide,
   (claim_C3_movie_similarity gSim "s" "" (pgR 0 2) (by decide) (by decide)).2.2.2.1⟩

/-- C4: every row of people `FindAllBySimilarity` carries `inCommon` as
the collected list of shared titles, each tagged with the relationship
type that connected them (not merely a count); the rows are ordered by
the size of that list descending, with skip and limit applied after the
ordering, so the sizes are non-increasing across the result. -/
theorem claim_C4_people_similarity (g : Graph) (src : String) (p : Paging) :
    (∀ e ∈ peopleFindAllBySimilarity g src p, e.inCommon = sharedCredits g src e.tmdbId) ∧
    peopleFindAllBySimilarity g src p =
      ((((peopleSimCandidates g src).map (toSimPerson g src)).insertionSort
        simSizeRel).drop p.skip).take p.limit ∧
    ((peopleFindAllBySimilarity g src p).map (fun e => e.inCommon.length)).Pairwise
      (fun a b => b ≤ a) := by
  refine ⟨fun e he => ?_, rfl, ?_⟩
  · have h1 : e ∈ ((peopleSimCandidates g src).map (toSimPerson g src)).insertionSort
        simSizeRel := mem_of_mem_window he
    have h2 := (List.mem_insertionSort simSizeRel).mp h1
    obtain ⟨n, -, rfl⟩ := List.mem_map.mp h2
    rfl
  · have hsorted := List.sorted_insertionSort simSizeRel
      ((peopleSimCandidates g src).map (toSimPerson g src))
    have hwin : (peopleFindAllBySimilarity g src p).Pairwise simSizeRel :=
      hsorted.sublist (window_sublist _ p.skip p.limit)
    simpa only [List.pairwise_map] using hwin

/-- C4 witness: at the tied store, the returned row for person `a`
carries the full collected shared-title list as `inCommon`. -/
theorem claim_C4_witness :
    (toSimPerson gTieA "s" { id := "a", label := Label.Person, name := "A" }).inCommon =
      sharedCredits gTieA "s"
        (toSimPerson gTieA "s" { id := "a", label := Label.Person, name := "A" }).tmdbId :=
  (claim_C4_people_similarity gTieA "s" (pgN 0 2)).1 _ (by decide)

/-- C6: `FindOneById` (movies and people) fails with `NotFound` when
the identifier matches zero rows; every list operation returns the
empty sequence (and no error) when its match yields zero rows. -/
theorem claim_C6_not_found (g : Graph) (id userId src : String) (p : Paging)
    (f : MovieFilter) :
    ((g.nodes.filter fun n => n.label == Label.Movie && n.id == id) = [] →
      movieFindOneById g id userId = .error .notFound) ∧
    ((g.nodes.filter fun n => n.label == Label.Person && n.id == id) = [] →
      peopleFindOneById g id = .error .notFound) ∧
    (movieMatches g f p.sort = [] → movieListOp g f userId p = []) ∧
    ((g.nodes.filter (personPred p.query)) = [] → peopleFindAll g p = []) ∧
    (movieSimScored g src = [] → movieFindAllBySimilarity g src userId p = []) ∧
    (peopleSimCandidates g src = [] → peopleFindAllBySimilarity g src p = []) := by
  refine ⟨fun h => ?_, fun h => ?_, fun h => ?_, fun h => ?_, fun h => ?_, fun h => ?_⟩
  · simp [movieFindOneById, h, singleRec]
  · simp [peopleFindOneById, h, singleRec]
  · simp [movieListOp, movieStoreRows, Slice, h]
  · simp [peopleFindAll, h]
  · simp [movieFindAllBySimilarity, h]
  · simp [peopleFindAllBySimilarity, h]

/-- C6 witness: on the empty store, both detail fetches yield
`NotFound` and the list operations yield empty sequences. -/
theorem claim_C6_witness :
    movieFindOneById gEmpty "m9" "" = .error .notFound ∧
    peopleFindOneById gEmpty "p9" = .error .notFound ∧
    movieListOp gEmpty .all "" (pgR 0 5) = [] ∧
    peopleFindAll gEmpty (pgN 0 5) = [] := by
  have h := claim_C6_not_found gEmpty "m9" "" "s9" (pgR 0 5) .all
  have h2 := claim_C6_not_found gEmpty "m9" "" "s9" (pgN 0 5) .all
  exact ⟨h.1 rfl, h.2.1 rfl, h.2.2.1 rfl, h2.2.2.2.1 rfl⟩

/-- C9: people `FindAll` filters by case-insensitive substring
containment of the query in the person's name when a query is present,
and applies no name filter when the query is nil; every returned row is
the projection of a person that passed this filter. -/
theorem claim_C9_name_filter (g : Graph) (p : Paging) :
    (p.query = none →
      g.nodes.filter (personPred p.query) =
        g.nodes.filter (fun n => n.label == Label.Person)) ∧
    (∀ qs, p.query = some qs →
      ∀ n, (n ∈ g.nodes.filter (personPred p.query) ↔
        n ∈ g.nodes ∧ n.label = Label.Person ∧ containsCI n.name qs = true)) ∧
    (∀ e ∈ peopleFindAll g p,
      ∃ n ∈ g.nodes.filter (personPred p.query), e = toPersonEntity n) := by
  refine ⟨fun h => ?_, fun qs h n => ?_, fun e he => ?_⟩
  · rw [h]
    apply List.filter_congr
    intro n _
    simp [personPred]
  · rw [h]
    rw [List.mem_filter]
    simp only [personPred, Bool.and_eq_true, beq_iff_eq]
  · have h1 : e ∈ ((g.nodes.filter (personPred p.query)).insertionSort
        (sortRel p.sort p.order)).map toPersonEntity := by
      simpa only [peopleFindAll, ← List.map_take, ← List.map_drop] using
        (window_sublist ((g.nodes.filter (personPred p.query)).insertionSort
          (sortRel p.sort p.order)) p.skip p.limit).map toPersonEntity |>.subset
          (by simpa [peopleFindAll, List.map_take, List.map_drop] using he)
    obtain ⟨n, hn, rfl⟩ := List.mem_map.mp h1
    exact ⟨n, (List.mem_insertionSort _).mp hn, rfl⟩

/-- C9 witness: with query "hank" only the person named "Tom Hanks"
passes the filter, and with no query every person does. -/
theorem claim_C9_witness :
    ({ id := "p1", label := Label.Person, name := "Tom Hanks",
       props := [("name", 1)] } : Node) ∈
      gPeople.nodes.filter (personPred (pgN 0 5 (some "hank")).query) ∧
    gPeople.nodes.filter (personPred (pgN 0 5).query) =
      gPeople.nodes.filter (fun n => n.label == Label.Person) := by
  constructor
  · exact ((claim_C9_name_filter gPeople (pgN 0 5 (some "hank"))).2.1 "hank" rfl _).mpr
      ⟨by decide, by decide, by decide⟩
  · exact (claim_C9_name_filter gPeople (pgN 0 5)).1 rfl

/-- C10: for both similarity operations the rows of the store window
(`SKIP`/`LIMIT` applied by the store after ordering) are returned to
the caller unchanged in count and order — no client-side re-slice, so
the result length is exactly the store window's length
`min limit (candidates - skip)`. -/
theorem claim_C10_similarity_no_reslice (g : Graph) (src userId : String) (p : Paging) :
    movieFindAllBySimilarity g src userId p =
      ((((movieSimScored g src).insertionSort scoreRel).drop p.skip).take p.limit).map
        (fun ms =>
          { tmdbId := ms.1.id, title := ms.1.title, imdbRating := ms.1.imdbRating,
            score := ms.2, favorite := (getUserFavorites g userId).1.contains ms.1.id }) ∧
    (movieFindAllBySimilarity g src userId p).length =
      min p.limit ((movieSimScored g src).length - p.skip) ∧
    peopleFindAllBySimilarity g src p =
      ((((peopleSimCandidates g src).map (toSimPerson g src)).insertionSort
        simSizeRel).drop p.skip).take p.limit ∧
    (peopleFindAllBySimilarity g src p).length =
      min p.limit ((peopleSimCandidates g src).length - p.skip) := by
  refine ⟨rfl, ?_, rfl, ?_⟩
  · simp [movieFindAllBySimilarity, List.length_take, List.length_drop]
  · simp [peopleFindAllBySimilarity, List.length_take, List.length_drop]

/-- Two consecutive skip/limit windows of a list whose entries have
pairwise distinct ids project to disjoint entity pages. -/
theorem people_pages_disjoint (L : List Node)
    (hL : L.Pairwise fun a b => a.id ≠ b.id) (s l : Nat) :
    List.Disjoint (((L.drop s).take l).map toPersonEntity)
      (((L.drop (s + l)).take l).map toPersonEntity) := by
  intro e he1 he2
  obtain ⟨a, ha, hae⟩ := List.mem_map.mp he1
  obtain ⟨b, hb, hbe⟩ := List.mem_map.mp he2
  have hid : a.id = b.id := congrArg PersonEntity.tmdbId (hae.trans hbe.symm)
  have hp : (L.drop s).Pairwise (fun x y => x.id ≠ y.id) :=
    hL.sublist (List.drop_sublist _ _)
  rw [← List.take_append_drop l (L.drop s)] at hp
  have hcross := (List.pairwise_append.mp hp).2.2
  have hb' : b ∈ (L.drop s).drop l := by
    rw [List.drop_drop]
    exact (List.take_sublist _ _).subset hb
  exact hcross a ha b hb' hid

/-- Two consecutive skip/limit windows of a list whose entries have
pairwise distinct keys are disjoint. -/
theorem pages_disjoint_of_key {α : Type} (key : α → String) (L : List α)
    (hL : L.Pairwise fun a b => key a ≠ key b) (s l : Nat) :
    List.Disjoint ((L.drop s).take l) ((L.drop (s + l)).take l) := by
  intro e he1 he2
  have hp : (L.drop s).Pairwise (fun x y => key x ≠ key y) :=
    hL.sublist (List.drop_sublist _ _)
  rw [← List.take_append_drop l (L.drop s)] at hp
  have hcross := (List.pairwise_append.mp hp).2.2
  have he2' : e ∈ (L.drop s).drop l := by
    rw [List.drop_drop]
    exact (List.take_sublist _ _).subset he2
  exact hcross e he1 e he2' rfl

/-- C5 counterexample: at the four-movie store with limit 2, the first
page (skip 0) holds the first two movies and the store matches the two
successor rows at skip 2, yet the call with skip 2 returns the empty
sequence instead of that successor page — refuting the claim that
raising skip by limit yields the next page for every list operation. -/
theorem claim_C5_counterexample :
    movieFindAll gFour "" (pgR 0 2) =
      [toMovieEntity [] (mkMovie "m1" 1), toMovieEntity [] (mkMovie "m2" 2)] ∧
    movieStoreRows gFour .all (getUserFavorites gFour "").1 (pgR 2 2) =
      [toMovieEntity [] (mkMovie "m3" 3), toMovieEntity [] (mkMovie "m4" 4)] ∧
    movieFindAll gFour "" (pgR 2 2) = [] ∧
    movieFindAll gFour "" (pgR 2 2) ≠
      movieStoreRows gFour .all (getUserFavorites gFour "").1 (pgR 2 2) := by
  refine ⟨by decide, by decide, by decide, by decide⟩

/-- C5 amended: every list operation returns at most `limit` rows.  For
people `FindAll` and for both similarity operations (which return the
store window verbatim) the pagination contract holds: the page at
`skip + limit` is the successor page (first page and successor page
together are the first `2·limit` ordered rows from offset `skip`) and,
when node ids are pairwise distinct, the two pages are disjoint.  For
the four re-slicing movie list operations (`FindAll`,
`FindAllByGenre`, `FindAllByActorId`, `FindAllByDirectorId`) the
client-side re-slice destroys the contract: any call whose skip
reaches `skip + limit` returns the empty sequence, not the successor
page. -/
theorem claim_C5_amended (g : Graph) (u genre actorId directorId src : String)
    (p : Paging) (hids : g.nodes.Pairwise fun a b => a.id ≠ b.id) :
    ((movieFindAll g u p).length ≤ p.limit ∧
     (movieFindAllByGenre g genre u p).length ≤ p.limit ∧
     (movieFindAllByActorId g actorId u p).length ≤ p.limit ∧
     (movieFindAllByDirectorId g directorId u p).length ≤ p.limit ∧
     (movieFindAllBySimilarity g src u p).length ≤ p.limit ∧
     (peopleFindAll g p).length ≤ p.limit ∧
     (peopleFindAllBySimilarity g src p).length ≤ p.limit) ∧
    peopleFindAll g p ++ peopleFindAll g { p with skip := p.skip + p.limit } =
      ((((g.nodes.filter (personPred p.query)).insertionSort
        (sortRel p.sort p.order)).drop p.skip).take (p.limit + p.limit)).map
        toPersonEntity ∧
    List.Disjoint (peopleFindAll g p)
      (peopleFindAll g { p with skip := p.skip + p.limit }) ∧
    (∀ f : MovieFilter, movieListOp g f u { p with skip := p.skip + p.limit } = []) ∧
    movieFindAllBySimilarity g src u p ++
        movieFindAllBySimilarity g src u { p with skip := p.skip + p.limit } =
      ((((movieSimScored g src).insertionSort scoreRel).drop p.skip).take
        (p.limit + p.limit)).map
        (fun ms =>
          { tmdbId := ms.1.id, title := ms.1.title, imdbRating := ms.1.imdbRating,
            score := ms.2, favorite := (getUserFavorites g u).1.contains ms.1.id }) ∧
    List.Disjoint (movieFindAllBySimilarity g src u p)
      (movieFindAllBySimilarity g src u { p with skip := p.skip + p.limit }) ∧
    peopleFindAllBySimilarity g src p ++
        peopleFindAllBySimilarity g src { p with skip := p.skip + p.limit } =
      ((((peopleSimCandidates g src).map (toSimPerson g src)).insertionSort
        simSizeRel).drop p.skip).take (p.limit + p.limit) ∧
    List.Disjoint (peopleFindAllBySimilarity g src p)
      (peopleFindAllBySimilarity g src { p with skip := p.skip + p.limit }) := by
  have hlen : ∀ {α : Type} (xs : List α) (s l : Nat), ((xs.drop s).take l).length ≤ l :=
    fun xs s l => List.length_take_le _ _
  have hsortedids : ((g.nodes.filter (personPred p.query)).insertionSort
      (sortRel p.sort p.order)).Pairwise (fun a b => a.id ≠ b.id) :=
    (List.Perm.pairwise_iff (fun h => Ne.symm h)
      (List.perm_insertionSort _ _)).mpr (hids.sublist (List.filter_sublist _))
  have hscored_ids : (movieSimScored g src).Pairwise (fun a b => a.1.id ≠ b.1.id) := by
    unfold movieSimScored
    split
    · rw [List.pairwise_map]
      exact hids.sublist (List.filter_sublist _)
    · exact List.Pairwise.nil
  have hsorted_scored : ((movieSimScored g src).insertionSort scoreRel).Pairwise
      (fun a b => a.1.id ≠ b.1.id) :=
    (List.Perm.pairwise_iff (fun h => Ne.symm h)
      (List.perm_insertionSort _ _)).mpr hscored_ids
  have hcand_ids : (peopleSimCandidates g src).Pairwise (fun a b => a.id ≠ b.id) := by
    unfold peopleSimCandidates
    split
    · exact hids.sublist (List.filter_sublist _)
    · exact List.Pairwise.nil
  have hsorted_people : (((peopleSimCandidates g src).map (toSimPerson g src)).insertionSort
      simSizeRel).Pairwise (fun a b => a.tmdbId ≠ b.tmdbId) :=
    (List.Perm.pairwise_iff (fun h => Ne.symm h)
      (List.perm_insertionSort _ _)).mpr (List.pairwise_map.mpr hcand_ids)
  refine ⟨⟨hlen _ _ _, hlen _ _ _, hlen _ _ _, hlen _ _ _, ?_, ?_, hlen _ _ _⟩,
    ?_, ?_, ?_, ?_, ?_, ?_, ?_⟩
  · simp only [movieFindAllBySimilarity, List.length_map]
    exact hlen _ _ _
  · simp only [peopleFindAll, List.length_map]
    exact hlen _ _ _
  · simp only [peopleFindAll]
    rw [List.take_add, List.drop_drop, List.map_append]
  · simp only [peopleFindAll]
    exact people_pages_disjoint _ hsortedids p.skip p.limit
  · intro f
    have hw : (movieStoreRows g f (getUserFavorites g u).1
        { p with skip := p.skip + p.limit }).length ≤ p.limit := by
      simp only [movieStoreRows, List.length_map]
      exact hlen _ _ _
    simp only [movieListOp, Slice]
    rw [List.drop_eq_nil_of_le (hw.trans (Nat.le_add_left _ _)), List.take_nil]
  · simp only [movieFindAllBySimilarity]
    rw [List.take_add, List.drop_drop, List.map_append]
  · simp only [movieFindAllBySimilarity, List.map_take, List.map_drop]
    exact pages_disjoint_of_key (fun e => e.tmdbId) _
      (List.pairwise_map.mpr hsorted_scored) p.skip p.limit
  · simp only [peopleFindAllBySimilarity]
    rw [List.take_add, List.drop_drop]
  · simp only [peopleFindAllBySimilarity]
    exact pages_disjoint_of_key (fun e => e.tmdbId) _ hsorted_people p.skip p.limit

/-- C5 witness: at the two-person store the first one-row page and the
page at skip 1 are disjoint, and each list call returns at most one
row. -/
theorem claim_C5_witness :
    (peopleFindAll gPeople (pgN 0 1)).length ≤ 1 ∧
    List.Disjoint (peopleFindAll gPeople (pgN 0 1))
      (peopleFindAll gPeople { pgN 0 1 with skip := (pgN 0 1).skip + (pgN 0 1).limit }) := by
  have h := claim_C5_amended gPeople "" "Comedy" "a1" "d1" "s1" (pgN 0 1) (by decide)
  exact ⟨h.1.2.2.2.2.2.1, h.2.2.1⟩

/-- C7 counterexample: two stores holding the same data (node lists
equal up to permutation, identical edge lists) produce different
people-similarity sequences for identical arguments — both rows are an
exact `inCommon`-size tie, and the order follows each store's own
enumeration, so no stable secondary key determines the relative order
of equal-size rows. -/
theorem claim_C7_counterexample :
    gTieA.nodes.Perm gTieB.nodes ∧ gTieA.edges = gTieB.edges ∧
    (peopleFindAllBySimilarity gTieA "s" (pgN 0 2)).map (fun e => e.inCommon.length) =
      [1, 1] ∧
    peopleFindAllBySimilarity gTieA "s" (pgN 0 2) ≠
      peopleFindAllBySimilarity gTieB "s" (pgN 0 2) := by
  refine ⟨by decide, by decide, by decide, by decide⟩

/-- C7 amended: people-similarity rows are ordered by descending
`inCommon` size with skip/limit applied after the ordering, and the
sort is stable: rows with equal (or correctly ordered) sizes keep the
store's enumeration order.  The relative order of an equal-size tie is
therefore fixed only relative to one store enumeration; the query
itself imposes no data-determined secondary key. -/
theorem claim_C7_amended (g : Graph) (src : String) (p : Paging) :
    ((peopleFindAllBySimilarity g src p).map (fun e => e.inCommon.length)).Pairwise
      (fun a b => b ≤ a) ∧
    (∀ a b : SimPersonEntity,
      b.inCommon.length ≤ a.inCommon.length →
      List.Sublist [a, b] ((peopleSimCandidates g src).map (toSimPerson g src)) →
      List.Sublist [a, b]
        (((peopleSimCandidates g src).map (toSimPerson g src)).insertionSort simSizeRel)) := by
  constructor
  · have hsorted := List.sorted_insertionSort simSizeRel
      ((peopleSimCandidates g src).map (toSimPerson g src))
    have hwin : (peopleFindAllBySimilarity g src p).Pairwise simSizeRel :=
      hsorted.sublist (window_sublist _ p.skip p.limit)
    simpa only [List.pairwise_map] using hwin
  · intro a b hab hsub
    exact List.pair_sublist_insertionSort hab hsub

/-- C7 witness: at the tied store, the projections of persons `a` and
`b` (in that enumeration order, with equal `inCommon` sizes) stay in
that order through the similarity sort. -/
theorem claim_C7_witness :
    List.Sublist
      [toSimPerson gTieA "s" { id := "a", label := Label.Person, name := "A" },
       toSimPerson gTieA "s" { id := "b", label := Label.Person, name := "B" }]
      (((peopleSimCandidates gTieA "s").map (toSimPerson gTieA "s")).insertionSort
        simSizeRel) :=
  (claim_C7_amended gTieA "s" (pgN 0 2)).2 _ _ (by decide) (by decide)

/-- C8: every user-supplied value (entity ids, free-text query,
favorites set, user id, genre name) travels to the store as a bound
named parameter; only the validated sort property and order direction
are interpolated into the query text, so two calls whose validated
paging specs agree on sort and order produce identical query strings
regardless of every other input. -/
theorem claim_C8_parameterized_queries (allow : List String) (p1 p2 : Paging)
    (favs : List String) (genre id userId : String)
    (hv1 : ValidPaging allow p1) (hv2 : ValidPaging allow p2)
    (hs : p1.sort = p2.sort) (ho : p1.order = p2.order) :
    (movieFindAllText p1 = movieFindAllText p2 ∧
     movieByGenreText p1 = movieByGenreText p2 ∧
     movieByActorText p1 = movieByActorText p2 ∧
     movieByDirectorText p1 = movieByDirectorText p2 ∧
     peopleFindAllText p1 = peopleFindAllText p2) ∧
    ((movieFindAllParams p1 favs).lookup "skip" = some (.int p1.skip) ∧
     (movieFindAllParams p1 favs).lookup "limit" = some (.int p1.limit) ∧
     (movieFindAllParams p1 favs).lookup "favorites" = some (.strList favs) ∧
     (movieByGenreParams p1 favs genre).lookup "name" = some (.str genre) ∧
     (movieByPersonParams p1 favs id).lookup "id" = some (.str id) ∧
     (peopleFindAllParams p1).lookup "q" = some (.optStr p1.query) ∧
     (favoritesParams userId).lookup "userId" = some (.str userId) ∧
     (movieSimilarityParams p1 favs id).lookup "id" = some (.str id) ∧
     (peopleSimilarityParams p1 id).lookup "id" = some (.str id)) := by
  refine ⟨⟨?_, ?_, ?_, ?_, ?_⟩, rfl, rfl, rfl, rfl, rfl, rfl, rfl, rfl, rfl⟩ <;>
    simp only [movieFindAllText, movieByGenreText, movieByActorText, movieByDirectorText,
      peopleFindAllText, movieListTail, hs, ho]

/-- C8 witness: two specs sharing sort and order but differing in skip,
limit and query yield the same movie `FindAll` query text, and the
free-text query is bound as the parameter `q`. -/
theorem claim_C8_witness :
    movieFindAllText (pgN 0 5 (some "tom")) = movieFindAllText (pgN 3 7) ∧
    (peopleFindAllParams (pgN 0 5 (some "tom"))).lookup "q" =
      some (.optStr (some "tom")) := by
  have h := claim_C8_parameterized_queries ["name"] (pgN 0 5 (some "tom")) (pgN 3 7)
    ["fav1"] "Comedy" "id1" "u1" ⟨by decide, by decide⟩ ⟨by decide, by decide⟩ rfl rfl
  exact ⟨h.1.1, h.2.2.2.2.2.2.1⟩

end Neoflix
